import Mathlib

/-!
Shallow embedding of the MQTT repeater (src/main.rs): the configuration
data model, the payload transformation match, the route table built as a
hash map from the `topics` list, the source listener loop body, the
startup path, and the client-option construction.  The theorems at the
end check the specified properties against these definitions.
-/

namespace MqttRepeater

/-- `KeyType` from main.rs (`RSA` / `ECC`). -/
inductive KeyType
  | rsa
  | ecc
deriving DecidableEq

/-- `Auth` from main.rs: password credentials or certificate file paths. -/
inductive Auth
  | authPassword (login password : String)
  | authCertificate (ca clientCert clientKey : String) (keyType : KeyType)
deriving DecidableEq

/-- `ConnectionConfig` from main.rs.  The integer fields (`u16`/`u64` in
the source) are kept as `Nat`; the source never combines them
arithmetically, so no wrap-around can occur. -/
structure ConnectionConfig where
  host : String
  auth : Auth
  clientId : String
  port : Nat
  keepAlive : Nat
  cleanSession : Bool
  connTimeout : Nat
  inflight : Nat
deriving DecidableEq

/-- `Behaviour` from main.rs: the three named payload behaviours. -/
inductive Behaviour
  | copy
  | omit
  | invertBoolean
deriving DecidableEq

/-- `Payload` from main.rs: a literal byte vector, a literal string, or a
named behaviour. -/
inductive Payload
  | bytes (bs : List Nat)
  | string (s : String)
  | behaviour (b : Behaviour)
deriving DecidableEq

/-- `Topic` from main.rs: one route entry of the `topics` config list. -/
structure Topic where
  «from» : String
  «to» : String
  payload : Payload
deriving DecidableEq

/-- `Config` from main.rs. -/
structure Config where
  source : ConnectionConfig
  destination : ConnectionConfig
  topics : List Topic
deriving DecidableEq

/-! ## UTF-8 encoding and decoding

Payloads are byte lists (`Vec<u8>` / `Bytes` in the source).  The source
uses `String::from_utf8_lossy` (lossy decode), `str::from_utf8` with
`unwrap` (strict decode), and `String` → `Bytes` conversion (UTF-8
encode); the three are embedded below following the standard UTF-8
algorithm that the Rust standard library implements. -/

/-- Standard UTF-8 encoding of one scalar value. -/
def utf8EncodeChar (c : Char) : List Nat :=
  let n := c.toNat
  if n < 0x80 then [n]
  else if n < 0x800 then [0xC0 + n / 0x40, 0x80 + n % 0x40]
  else if n < 0x10000 then
    [0xE0 + n / 0x1000, 0x80 + (n / 0x40) % 0x40, 0x80 + n % 0x40]
  else
    [0xF0 + n / 0x40000, 0x80 + (n / 0x1000) % 0x40,
      0x80 + (n / 0x40) % 0x40, 0x80 + n % 0x40]

/-- The bytes of a string (`String::into_bytes` / `.into()` on `Bytes`). -/
def strBytes (s : String) : List Nat :=
  (s.data.map utf8EncodeChar).flatten

/-- Is `b` a UTF-8 continuation byte? -/
def isCont (b : Nat) : Bool := 0x80 ≤ b && b ≤ 0xBF

/-- Valid range of the second byte of a three-byte sequence, which depends
on the lead byte (excludes overlong forms and surrogates). -/
def isCont3 (b0 b1 : Nat) : Bool :=
  if b0 = 0xE0 then 0xA0 ≤ b1 && b1 ≤ 0xBF
  else if b0 = 0xED then 0x80 ≤ b1 && b1 ≤ 0x9F
  else isCont b1

/-- Valid range of the second byte of a four-byte sequence, which depends
on the lead byte (excludes overlong forms and values above U+10FFFF). -/
def isCont4 (b0 b1 : Nat) : Bool :=
  if b0 = 0xF0 then 0x90 ≤ b1 && b1 ≤ 0xBF
  else if b0 = 0xF4 then 0x80 ≤ b1 && b1 ≤ 0x8F
  else isCont b1

/-- One step of strict UTF-8 decoding: given the lead byte `b0` and the
remaining bytes, return the decoded character together with how many
bytes beyond the lead byte the sequence uses, or `none` if the sequence
is invalid. -/
def decodeStep (b0 : Nat) (rest : List Nat) : Option (Char × Nat) :=
  if b0 < 0x80 then some (Char.ofNat b0, 0)
  else if 0xC2 ≤ b0 && b0 ≤ 0xDF then
    match rest with
    | b1 :: _ =>
      if isCont b1 then some (Char.ofNat ((b0 - 0xC0) * 0x40 + (b1 - 0x80)), 1)
      else none
    | [] => none
  else if 0xE0 ≤ b0 && b0 ≤ 0xEF then
    match rest with
    | b1 :: b2 :: _ =>
      if isCont3 b0 b1 && isCont b2 then
        some (Char.ofNat ((b0 - 0xE0) * 0x1000 + (b1 - 0x80) * 0x40 + (b2 - 0x80)), 2)
      else none
    | _ => none
  else if 0xF0 ≤ b0 && b0 ≤ 0xF4 then
    match rest with
    | b1 :: b2 :: b3 :: _ =>
      if isCont4 b0 b1 && isCont b2 && isCont b3 then
        some (Char.ofNat ((b0 - 0xF0) * 0x40000 + (b1 - 0x80) * 0x1000
          + (b2 - 0x80) * 0x40 + (b3 - 0x80)), 3)
      else none
    | _ => none
  else none

/-- Strict UTF-8 decoding, driven by a fuel counter so that the recursion
is structural; every step consumes at least one byte, so fuel equal to
the length of the input (see `utf8Decode`) never runs out. -/
def utf8DecodeGo : Nat → List Nat → Option (List Char)
  | _, [] => some []
  | 0, _ :: _ => none
  | fuel + 1, b0 :: rest =>
    match decodeStep b0 rest with
    | some (c, k) => (utf8DecodeGo fuel (rest.drop k)).map fun cs => c :: cs
    | none => none

/-- Strict UTF-8 decoding (`str::from_utf8`): `none` on any invalid
sequence. -/
def utf8Decode (l : List Nat) : Option (List Char) :=
  utf8DecodeGo l.length l

/-- `l` is the payload of a valid UTF-8 string (`str::from_utf8` is `Ok`). -/
def validUtf8 (l : List Nat) : Bool := (utf8Decode l).isSome

/-- The replacement character U+FFFD. -/
def replChar : Char := Char.ofNat 0xFFFD

/-- One step of lossy UTF-8 decoding: given the lead byte `b0` and the
remaining bytes, return the decoded character (the replacement character
for an invalid sequence) and how many bytes beyond the lead byte belong
to the sequence (`0` resumes right after the lead byte, so a byte that
fails its range check is retried as a lead byte, matching the
maximal-subpart policy of `String::from_utf8_lossy`). -/
def lossyStep (b0 : Nat) (rest : List Nat) : Char × Nat :=
  if b0 < 0x80 then (Char.ofNat b0, 0)
  else if 0xC2 ≤ b0 && b0 ≤ 0xDF then
    match rest with
    | b1 :: _ =>
      if isCont b1 then (Char.ofNat ((b0 - 0xC0) * 0x40 + (b1 - 0x80)), 1)
      else (replChar, 0)
    | [] => (replChar, 0)
  else if 0xE0 ≤ b0 && b0 ≤ 0xEF then
    match rest with
    | b1 :: rest2 =>
      if isCont3 b0 b1 then
        match rest2 with
        | b2 :: _ =>
          if isCont b2 then
            (Char.ofNat ((b0 - 0xE0) * 0x1000 + (b1 - 0x80) * 0x40 + (b2 - 0x80)), 2)
          else (replChar, 1)
        | [] => (replChar, 1)
      else (replChar, 0)
    | [] => (replChar, 0)
  else if 0xF0 ≤ b0 && b0 ≤ 0xF4 then
    match rest with
    | b1 :: rest2 =>
      if isCont4 b0 b1 then
        match rest2 with
        | b2 :: rest3 =>
          if isCont b2 then
            match rest3 with
            | b3 :: _ =>
              if isCont b3 then
                (Char.ofNat ((b0 - 0xF0) * 0x40000 + (b1 - 0x80) * 0x1000
                  + (b2 - 0x80) * 0x40 + (b3 - 0x80)), 3)
              else (replChar, 2)
            | [] => (replChar, 2)
          else (replChar, 1)
        | [] => (replChar, 1)
      else (replChar, 0)
    | [] => (replChar, 0)
  else (replChar, 0)

/-- Lossy UTF-8 decoding, driven by a fuel counter so that the recursion
is structural; every step consumes at least one byte, so fuel equal to
the length of the input (see `utf8Lossy`) never runs out. -/
def utf8LossyGo : Nat → List Nat → List Char
  | _, [] => []
  | 0, _ :: _ => []
  | fuel + 1, b0 :: rest =>
    let s := lossyStep b0 rest
    s.1 :: utf8LossyGo fuel (rest.drop s.2)

/-- Lossy UTF-8 decoding (`String::from_utf8_lossy`): each maximal invalid
subsequence becomes one replacement character, resuming at the first byte
that fails its range check. -/
def utf8Lossy (l : List Nat) : List Char :=
  utf8LossyGo l.length l

/-- `String::from_utf8_lossy` as a `String`. -/
def fromUtf8Lossy (l : List Nat) : String := String.mk (utf8Lossy l)

/-- Models Rust's `str::to_lowercase` on one character, restricted to the
ASCII range.  The full Unicode lowercase table maps no character outside
ASCII to any character of the tokens compared in main.rs (`"false"`,
`"0"`, `"true"`, `"1"`), so restricting the table to ASCII leaves the
result of the boolean-token match unchanged on every input. -/
def rustCharToLower (c : Char) : Char :=
  if 'A' ≤ c && c ≤ 'Z' then Char.ofNat (c.toNat + 0x20) else c

/-- Models Rust's `str::to_lowercase` (see `rustCharToLower`). -/
def toLowercaseStr (s : String) : String :=
  String.mk (s.data.map rustCharToLower)

/-- The payload transformation: the `match payload_behaviour` expression
of main.rs (lines 169-182), as a function of the raw payload and the
configured rule. -/
def transform (raw : List Nat) : Payload → List Nat
  | .behaviour .copy => raw
  | .behaviour .omit => strBytes ""
  | .behaviour .invertBoolean =>
    let s := toLowercaseStr (fromUtf8Lossy raw)
    let out := if s = "false" ∨ s = "0" then "true"
               else if s = "true" ∨ s = "1" then "false"
               else ""
    strBytes out
  | .string ps => strBytes ps
  | .bytes bs => bs

/-! ## The route table

`topics_lookup` in main.rs (line 143) is a `HashMap` collected from the
`topics` list in order.  A `HashMap` is modelled as an association list
with at most one entry per key: inserting an existing key replaces its
value in place, inserting a new key appends it.  Lookup returns the
first (hence only) entry for the key. -/

/-- A route table: source topic ↦ (destination topic, payload rule). -/
abbrev RouteTable := List (String × String × Payload)

/-- `HashMap` insertion: replace the entry for the key if present,
otherwise add one. -/
def insertRoute : RouteTable → String → String × Payload → RouteTable
  | [], k, v => [(k, v)]
  | (k', v') :: rest, k, v =>
    if k' = k then (k, v) :: rest else (k', v') :: insertRoute rest k v

/-- `HashMap::get`: the value stored for `k`, if any. -/
def lookupRoute : RouteTable → String → Option (String × Payload)
  | [], _ => none
  | (k', v) :: rest, k => if k' = k then some v else lookupRoute rest k

/-- `topics_lookup` (main.rs line 143): the `topics` list collected, in
order, into a map from `from` to `(to, payload)`. -/
def buildRoutes (ts : List Topic) : RouteTable :=
  ts.foldl (fun m t => insertRoute m t.«from» (t.«to», t.payload)) []

/-- The keys of a route table. -/
def routeKeys (m : RouteTable) : List String := m.map Prod.fst

/-! ## The source listener loop

The body of the `t1` task (main.rs lines 146-197).  One loop iteration
polls the event loop, optionally prints the event (verbose mode), and
reacts to `ConnAck` and `Publish` packets.  The client calls that can
fail (`subscribe_many`, `publish_bytes`) are represented by their result,
supplied as part of the step input; `.expect` on a failed call panics,
which terminates the task. -/

/-- MQTT delivery quality (`rumqttc::QoS`). -/
inductive QoS
  | atMostOnce
  | atLeastOnce
  | exactlyOnce
deriving DecidableEq

/-- An inbound `Publish` packet: topic, payload bytes and retain flag. -/
structure PublishPkt where
  topic : String
  payload : List Nat
  retain : Bool
deriving DecidableEq

/-- The packets the loop inspects; every other packet kind is `other`. -/
inductive Packet
  | connAck (success : Bool)
  | publish (p : PublishPkt)
  | other
deriving DecidableEq

/-- A polled event (`rumqttc::Event`). -/
inductive Event
  | incoming (p : Packet)
  | outgoing
deriving DecidableEq

/-- `rumqttc::SubscribeFilter`. -/
structure SubscribeFilter where
  path : String
  qos : QoS
deriving DecidableEq

/-- The client calls the source loop issues. -/
inductive Action
  | subscribeMany (filters : List SubscribeFilter)
  | publishDest (topic : String) (qos : QoS) (retain : Bool) (payload : List Nat)
deriving DecidableEq

/-- Result of a fallible client call (`subscribe_many` / `publish_bytes`). -/
inductive ClientResult
  | ok
  | err
deriving DecidableEq

/-- The input of one loop iteration: the polled event (or a connection
error) and the results the client would return for a subscribe and a
publish issued during this iteration. -/
structure StepInput where
  polled : Except String Event
  subscribeResult : ClientResult
  publishResult : ClientResult

/-- Whether the loop task is still running after an iteration. -/
inductive LoopOutcome
  | running
  | terminated (msg : String)
deriving DecidableEq

/-- Does `print_event` (main.rs lines 254-264) panic on this event?  For
an inbound `Publish` it unwraps `str::from_utf8` of the payload, which
panics when the payload is not valid UTF-8. -/
def printEventPanics : Event → Bool
  | .incoming (.publish p) => !(validUtf8 p.payload)
  | _ => false

/-- One iteration of the source listener loop (main.rs lines 146-197):
a poll error is logged and the loop continues; in verbose mode the event
is printed first (which can panic, terminating the task); a successful
`ConnAck` subscribes to every configured topic in one `subscribe_many`
call at `AtLeastOnce`; a `Publish` whose topic is in the route table is
transformed and republished at `AtLeastOnce` with its retain flag; a
failed subscribe or publish hits `.expect`, terminating the task.
Returns the outcome and the client calls issued this iteration. -/
def sourceStep (verbose : Bool) (cfgTopics : List Topic) (tbl : RouteTable)
    (inp : StepInput) : LoopOutcome × List Action :=
  match inp.polled with
  | .error _ => (.running, [])
  | .ok ev =>
    if verbose && printEventPanics ev then
      (.terminated "byte index panic in print_event", [])
    else
      match ev with
      | .incoming (.connAck success) =>
        if success then
          let a := Action.subscribeMany
            (cfgTopics.map fun t => ⟨t.«from», QoS.atLeastOnce⟩)
          match inp.subscribeResult with
          | .ok => (.running, [a])
          | .err => (.terminated "Failed to subscribe to source topics", [a])
        else (.running, [])
      | .incoming (.publish p) =>
        match lookupRoute tbl p.topic with
        | some (dest, rule) =>
          let a := Action.publishDest dest QoS.atLeastOnce p.retain
            (transform p.payload rule)
          match inp.publishResult with
          | .ok => (.running, [a])
          | .err => (.terminated "Failed to publish to destination", [a])
        | none => (.running, [])
      | _ => (.running, [])

/-- The source listener loop run over a list of iteration inputs: once an
iteration terminates the task, the remaining inputs are never processed
and contribute no client calls. -/
def sourceLoopRun (verbose : Bool) (cfgTopics : List Topic) (tbl : RouteTable) :
    List StepInput → LoopOutcome × List Action
  | [] => (.running, [])
  | inp :: rest =>
    match sourceStep verbose cfgTopics tbl inp with
    | (.running, as) =>
      let r := sourceLoopRun verbose cfgTopics tbl rest
      (r.1, as ++ r.2)
    | (.terminated m, as) => (.terminated m, as)

/-- One iteration of the destination listener loop (the `t2` task,
main.rs lines 200-215): a poll error is logged and the loop continues;
in verbose mode the event is printed first, which can panic on an
inbound publish whose payload is not valid UTF-8; otherwise the event is
only drained.  The loop body has no other exit. -/
def destStep (verbose : Bool) (polled : Except String Event) : LoopOutcome :=
  match polled with
  | .error _ => .running
  | .ok ev =>
    if verbose && printEventPanics ev then
      .terminated "byte index panic in print_event"
    else .running

/-- The destination listener loop run over a list of polled events. -/
def destLoopRun (verbose : Bool) : List (Except String Event) → LoopOutcome
  | [] => .running
  | e :: rest =>
    match destStep verbose e with
    | .running => destLoopRun verbose rest
    | .terminated m => .terminated m

/-- The supervisor at main.rs line 217: `tokio::join!(t1, t2)` makes
`main` — and with it the process — finish only once both spawned tasks
have finished.  A panic inside a spawned task is caught by the runtime
and surfaced as the join error bound to `_first`/`_second`; it ends that
task alone, not the other task and not the process. -/
def processExits (src dest : LoopOutcome) : Bool :=
  match src, dest with
  | .terminated _, .terminated _ => true
  | _, _ => false

/-! ## Startup (config loading) and client options -/

/-- How main.rs leaves its startup section (lines 129-138): an unreadable
config file prints a diagnostic and plainly returns from `main`
(`exitNormal`); an unparseable one hits `.expect`, i.e. panics
(`panicExit`); otherwise execution proceeds to build the clients. -/
inductive StartupOutcome
  | exitNormal (diag : String)
  | panicExit (msg : String)
  | proceed (cfg : Config)
deriving DecidableEq

/-- The startup section of `main` (lines 129-138): `readResult` stands
for `fs::read_to_string` of the config path, `parse` for
`serde_json::from_str`. -/
def startup (readResult : Except String String)
    (parse : String → Except String Config) : StartupOutcome :=
  match readResult with
  | .error e => .exitNormal ("Unable to read config file: " ++ e)
  | .ok s =>
    match parse s with
    | .error _ => .panicExit "Failed to parse config"
    | .ok cfg => .proceed cfg

/-- The exit status of the process right after startup, when startup does
not proceed: a plain return from `main` exits with status 0 (`some
false`), a panic exits with a non-zero status (`some true`); `none` when
startup proceeds and the process keeps running. -/
def startupExitNonZero : StartupOutcome → Option Bool
  | .exitNormal _ => some false
  | .panicExit _ => some true
  | .proceed _ => none

/-- Whether execution reaches `make_client` and the event loops: in
main.rs every connection, subscription and publish (lines 140-217) comes
after the config read and parse, so nothing is connected unless startup
proceeds. -/
def startupConnects : StartupOutcome → Bool
  | .proceed _ => true
  | _ => false

/-- The TLS transport configured on the options (`Transport` in
main.rs). -/
inductive TransportModel
  | tlsNativeRoots
  | tlsSimple (ca clientCert : List Nat) (key : KeyType × List Nat)
deriving DecidableEq

/-- The observable `MqttOptions` state that `make_client` produces:
`MqttOptions::new` plus the setters called on it.  `connectionTimeout`
holds the client library's own default of 5 seconds; the library setter
for it is never called in main.rs. -/
structure MqttOptionsModel where
  clientId : String
  host : String
  port : Nat
  keepAlive : Nat
  inflight : Nat
  cleanSession : Bool
  credentials : Option (String × String)
  transport : Option TransportModel
  connectionTimeout : Nat
deriving DecidableEq

/-- `MqttOptions::new` with the library defaults for everything the
constructor does not take. -/
def mqttOptionsNew (clientId host : String) (port : Nat) : MqttOptionsModel :=
  { clientId := clientId, host := host, port := port
    keepAlive := 60, inflight := 100, cleanSession := true
    credentials := none, transport := none, connectionTimeout := 5 }

/-- `make_client` (main.rs lines 220-252) up to the options it hands to
`AsyncClient::new`.  `readFile` stands for `fs::read` of the certificate
and key files, `rootStore` for `rustls_native_certs::load_native_certs`;
a failed read or root-store load hits `.expect`, i.e. panics (`error`). -/
def makeClientOptions (cfg : ConnectionConfig)
    (readFile : String → Except String (List Nat))
    (rootStore : Except String Unit) : Except String MqttOptionsModel :=
  let o := { mqttOptionsNew cfg.clientId cfg.host cfg.port with
    keepAlive := cfg.keepAlive, inflight := cfg.inflight
    cleanSession := cfg.cleanSession }
  match cfg.auth with
  | .authPassword login password =>
    match rootStore with
    | .error _ => .error "Failed to load platform certificates."
    | .ok _ =>
      .ok { o with credentials := some (login, password)
                   transport := some .tlsNativeRoots }
  | .authCertificate ca clientCert clientKey keyType =>
    match readFile ca with
    | .error _ => .error "Failed to read CA certificate file"
    | .ok caBytes =>
      match readFile clientCert with
      | .error _ => .error "Failed to read client certificate file"
      | .ok certBytes =>
        match readFile clientKey with
        | .error _ => .error "Failed to read client key file"
        | .ok keyBytes =>
          .ok { o with
                transport := some (.tlsSimple caBytes certBytes (keyType, keyBytes)) }

/-! ## Route table lemmas -/

theorem lookupRoute_insertRoute (m : RouteTable) (k : String) (v : String × Payload)
    (k' : String) :
    lookupRoute (insertRoute m k v) k' = if k = k' then some v else lookupRoute m k' := by
  induction m with
  | nil => by_cases h : k = k' <;> simp [insertRoute, lookupRoute, h]
  | cons hd tl ih =>
    obtain ⟨k₀, v₀⟩ := hd
    by_cases h1 : k₀ = k
    · subst h1
      by_cases h2 : k₀ = k' <;> simp [insertRoute, lookupRoute, h2]
    · by_cases h2 : k₀ = k'
      · have hkk : ¬k = k' := fun h => h1 (h2.trans h.symm)
        have hk'k : ¬k' = k := fun h => hkk h.symm
        simp [insertRoute, lookupRoute, h1, h2, hkk, hk'k]
      · simp [insertRoute, lookupRoute, h1, h2, ih]

theorem routeKeys_insertRoute (m : RouteTable) (k : String) (v : String × Payload) :
    routeKeys (insertRoute m k v)
      = if k ∈ routeKeys m then routeKeys m else routeKeys m ++ [k] := by
  induction m with
  | nil => simp [insertRoute, routeKeys]
  | cons hd tl ih =>
    obtain ⟨k₀, v₀⟩ := hd
    by_cases h1 : k₀ = k
    · subst h1
      simp [insertRoute, routeKeys]
    · have h1' : ¬k = k₀ := fun h => h1 h.symm
      simp only [routeKeys] at ih
      by_cases h2 : k ∈ List.map Prod.fst tl
      · simp [insertRoute, routeKeys, h1, h1', h2, ih, List.mem_cons]
      · simp [insertRoute, routeKeys, h1, h1', h2, ih, List.mem_cons]

theorem nodup_routeKeys_insertRoute (m : RouteTable) (k : String) (v : String × Payload)
    (h : (routeKeys m).Nodup) : (routeKeys (insertRoute m k v)).Nodup := by
  rw [routeKeys_insertRoute]
  split
  · exact h
  · next hnm => simp [List.nodup_append, h, hnm]

/-- The fold that `buildRoutes` performs, from an arbitrary accumulator. -/
def foldRoutes (m : RouteTable) (ts : List Topic) : RouteTable :=
  ts.foldl (fun m t => insertRoute m t.«from» (t.«to», t.payload)) m

theorem foldRoutes_nil (m : RouteTable) : foldRoutes m [] = m := rfl

theorem foldRoutes_cons (m : RouteTable) (t : Topic) (ts : List Topic) :
    foldRoutes m (t :: ts) = foldRoutes (insertRoute m t.«from» (t.«to», t.payload)) ts := rfl

theorem buildRoutes_eq_foldRoutes (ts : List Topic) : buildRoutes ts = foldRoutes [] ts := rfl

theorem foldRoutes_append (m : RouteTable) (ts us : List Topic) :
    foldRoutes m (ts ++ us) = foldRoutes (foldRoutes m ts) us := by
  simp [foldRoutes]

theorem lookupRoute_foldRoutes_of_not_mem (ts : List Topic) (m : RouteTable) (k : String)
    (h : ∀ t ∈ ts, t.«from» ≠ k) :
    lookupRoute (foldRoutes m ts) k = lookupRoute m k := by
  induction ts generalizing m with
  | nil => rfl
  | cons t ts ih =>
    have ht : t.«from» ≠ k := h t (List.mem_cons_self t ts)
    rw [foldRoutes_cons, ih _ (fun u hu => h u (List.mem_cons_of_mem _ hu)),
      lookupRoute_insertRoute]
    simp [ht]

theorem mem_routeKeys_foldRoutes_of_mem (ts : List Topic) (m : RouteTable) (a : String)
    (h : a ∈ routeKeys m) : a ∈ routeKeys (foldRoutes m ts) := by
  induction ts generalizing m with
  | nil => exact h
  | cons t ts ih =>
    rw [foldRoutes_cons]
    refine ih _ ?_
    rw [routeKeys_insertRoute]
    split
    · exact h
    · exact List.mem_append_left _ h

theorem mem_routeKeys_foldRoutes (ts : List Topic) (m : RouteTable) (t : Topic)
    (ht : t ∈ ts) : t.«from» ∈ routeKeys (foldRoutes m ts) := by
  induction ts generalizing m with
  | nil => cases ht
  | cons u ts ih =>
    rw [foldRoutes_cons]
    rcases List.mem_cons.mp ht with h | h
    · subst h
      refine mem_routeKeys_foldRoutes_of_mem ts _ _ ?_
      rw [routeKeys_insertRoute]
      split
      · assumption
      · exact List.mem_append_right _ (List.mem_singleton_self _)
    · exact ih _ h

theorem routeKeys_foldRoutes_subset (ts : List Topic) (m : RouteTable) (a : String)
    (h : a ∈ routeKeys (foldRoutes m ts)) :
    a ∈ routeKeys m ∨ a ∈ ts.map (fun t => t.«from») := by
  induction ts generalizing m with
  | nil => exact Or.inl h
  | cons t ts ih =>
    rw [foldRoutes_cons] at h
    rcases ih _ h with h' | h'
    · rw [routeKeys_insertRoute] at h'
      split at h'
      · exact Or.inl h'
      · rcases List.mem_append.mp h' with h'' | h''
        · exact Or.inl h''
        · right
          simp [List.mem_singleton.mp h'']
    · right
      simp [h']

theorem nodup_routeKeys_foldRoutes (ts : List Topic) (m : RouteTable)
    (h : (routeKeys m).Nodup) : (routeKeys (foldRoutes m ts)).Nodup := by
  induction ts generalizing m with
  | nil => exact h
  | cons t ts ih => exact ih _ (nodup_routeKeys_insertRoute _ _ _ h)

theorem nodup_routeKeys_buildRoutes (ts : List Topic) :
    (routeKeys (buildRoutes ts)).Nodup :=
  nodup_routeKeys_foldRoutes ts [] List.nodup_nil

theorem mem_routeKeys_buildRoutes (ts : List Topic) (t : Topic) (ht : t ∈ ts) :
    t.«from» ∈ routeKeys (buildRoutes ts) :=
  mem_routeKeys_foldRoutes ts [] t ht

theorem routeKeys_buildRoutes_subset (ts : List Topic) (a : String)
    (h : a ∈ routeKeys (buildRoutes ts)) : a ∈ ts.map (fun t => t.«from») := by
  rcases routeKeys_foldRoutes_subset ts [] a h with h' | h'
  · cases h'
  · exact h'

theorem lookupRoute_buildRoutes_eq_none (ts : List Topic) (k : String)
    (h : ∀ t ∈ ts, t.«from» ≠ k) : lookupRoute (buildRoutes ts) k = none := by
  rw [buildRoutes_eq_foldRoutes, lookupRoute_foldRoutes_of_not_mem ts [] k h]
  rfl

/-! ## Source loop lemmas -/

theorem sourceLoopRun_stops (verbose : Bool) (cfgTopics : List Topic) (tbl : RouteTable)
    (pre rest : List StepInput) (inp : StepInput) (m : String) (as : List Action)
    (hpre : ∀ x ∈ pre, (sourceStep verbose cfgTopics tbl x).1 = .running)
    (hterm : sourceStep verbose cfgTopics tbl inp = (.terminated m, as)) :
    sourceLoopRun verbose cfgTopics tbl (pre ++ inp :: rest)
      = (.terminated m,
         (pre.map fun x => (sourceStep verbose cfgTopics tbl x).2).flatten ++ as) := by
  induction pre with
  | nil => simp [sourceLoopRun, hterm]
  | cons x pre ih =>
    have hx := hpre x (List.mem_cons_self x pre)
    rcases hstep : sourceStep verbose cfgTopics tbl x with ⟨o, as'⟩
    rw [hstep] at hx
    cases o with
    | terminated m' => cases hx
    | running =>
      rw [List.cons_append]
      simp only [sourceLoopRun, hstep]
      rw [ih (fun y hy => hpre y (List.mem_cons_of_mem _ hy))]
      simp [hstep]

theorem printEventPanics_false_of (ev : Event) (verbose : Bool)
    (h : verbose = false ∨ printEventPanics ev = false) :
    (verbose && printEventPanics ev) = false := by
  rcases h with h | h <;> simp [h]

theorem destStep_not_verbose (polled : Except String Event) :
    destStep false polled = .running := by
  cases polled <;> simp [destStep]

theorem destLoopRun_not_verbose (es : List (Except String Event)) :
    destLoopRun false es = .running := by
  induction es with
  | nil => rfl
  | cons e rest ih => simp [destLoopRun, destStep_not_verbose, ih]

/-! ## Claims -/

/-- C1: for every inbound publish event on the source connection whose
topic has an entry in the route table, the source loop issues exactly one
publish to the destination connection, addressed to the mapped
destination topic, carrying the payload transformed per the entry's rule,
at at-least-once delivery quality, and with the original message's retain
flag preserved (and the loop keeps running when the publish succeeds). -/
theorem routed_publish_exactly_once (verbose : Bool) (cfgTopics : List Topic)
    (tbl : RouteTable) (p : PublishPkt) (dest : String) (rule : Payload)
    (sr pr : ClientResult)
    (hroute : lookupRoute tbl p.topic = some (dest, rule))
    (hprint : verbose = false ∨ validUtf8 p.payload = true) :
    (sourceStep verbose cfgTopics tbl ⟨.ok (.incoming (.publish p)), sr, pr⟩).2
      = [Action.publishDest dest QoS.atLeastOnce p.retain (transform p.payload rule)]
    ∧ (pr = .ok →
       sourceStep verbose cfgTopics tbl ⟨.ok (.incoming (.publish p)), sr, pr⟩
         = (.running,
            [Action.publishDest dest QoS.atLeastOnce p.retain (transform p.payload rule)])) := by
  have hpe : (verbose && printEventPanics (.incoming (.publish p))) = false := by
    refine printEventPanics_false_of _ _ ?_
    rcases hprint with h | h
    · exact Or.inl h
    · exact Or.inr (by simp [printEventPanics, h])
  constructor
  · cases pr <;> simp [sourceStep, hpe, hroute]
  · intro hpr
    subst hpr
    simp [sourceStep, hpe, hroute]

/-- Witness for C1: the end-to-end scenario of the spec, route
`dev/a → cloud/a` with the copy rule and payload `b"hello"`. -/
theorem routed_publish_exactly_once_witness :
    lookupRoute (buildRoutes [⟨"dev/a", "cloud/a", .behaviour .copy⟩])
        (PublishPkt.mk "dev/a" (strBytes "hello") true).topic
      = some ("cloud/a", .behaviour .copy)
    ∧ ((sourceStep false [⟨"dev/a", "cloud/a", .behaviour .copy⟩]
          (buildRoutes [⟨"dev/a", "cloud/a", .behaviour .copy⟩])
          ⟨.ok (.incoming (.publish ⟨"dev/a", strBytes "hello", true⟩)), .ok, .ok⟩).2
        = [Action.publishDest "cloud/a" QoS.atLeastOnce
            (PublishPkt.mk "dev/a" (strBytes "hello") true).retain
            (transform (PublishPkt.mk "dev/a" (strBytes "hello") true).payload
              (.behaviour .copy))]
      ∧ (ClientResult.ok = .ok →
         sourceStep false [⟨"dev/a", "cloud/a", .behaviour .copy⟩]
            (buildRoutes [⟨"dev/a", "cloud/a", .behaviour .copy⟩])
            ⟨.ok (.incoming (.publish ⟨"dev/a", strBytes "hello", true⟩)), .ok, .ok⟩
           = (.running,
              [Action.publishDest "cloud/a" QoS.atLeastOnce
                (PublishPkt.mk "dev/a" (strBytes "hello") true).retain
                (transform (PublishPkt.mk "dev/a" (strBytes "hello") true).payload
                  (.behaviour .copy))]))) :=
  ⟨by decide,
   routed_publish_exactly_once false [⟨"dev/a", "cloud/a", .behaviour .copy⟩]
     (buildRoutes [⟨"dev/a", "cloud/a", .behaviour .copy⟩])
     ⟨"dev/a", strBytes "hello", true⟩ "cloud/a" (.behaviour .copy) .ok .ok
     (by decide) (Or.inl rfl)⟩

/-- C2: the invert-boolean transform is total over all byte inputs: it
lossy-decodes the bytes as UTF-8 and lower-cases the result; `"false"`
or `"0"` yields the bytes of `"true"`, `"true"` or `"1"` yields the bytes
of `"false"`, and every other input — including undecodable bytes —
yields empty bytes. -/
theorem invert_boolean_total (raw : List Nat) :
    (transform raw (.behaviour .invertBoolean)
      = (if toLowercaseStr (fromUtf8Lossy raw) = "false"
            ∨ toLowercaseStr (fromUtf8Lossy raw) = "0" then strBytes "true"
         else if toLowercaseStr (fromUtf8Lossy raw) = "true"
            ∨ toLowercaseStr (fromUtf8Lossy raw) = "1" then strBytes "false"
         else []))
    ∧ (transform raw (.behaviour .invertBoolean) = strBytes "true"
       ∨ transform raw (.behaviour .invertBoolean) = strBytes "false"
       ∨ transform raw (.behaviour .invertBoolean) = [])
    ∧ transform (strBytes "true") (.behaviour .invertBoolean) = strBytes "false"
    ∧ transform (strBytes "FALSE") (.behaviour .invertBoolean) = strBytes "true"
    ∧ transform (strBytes "1") (.behaviour .invertBoolean) = strBytes "false"
    ∧ transform (strBytes "0") (.behaviour .invertBoolean) = strBytes "true"
    ∧ transform (strBytes "maybe") (.behaviour .invertBoolean) = []
    ∧ transform [0xFF] (.behaviour .invertBoolean) = [] := by
  have hshape : transform raw (.behaviour .invertBoolean)
      = (if toLowercaseStr (fromUtf8Lossy raw) = "false"
            ∨ toLowercaseStr (fromUtf8Lossy raw) = "0" then strBytes "true"
         else if toLowercaseStr (fromUtf8Lossy raw) = "true"
            ∨ toLowercaseStr (fromUtf8Lossy raw) = "1" then strBytes "false"
         else []) := by
    simp only [transform]
    by_cases h1 : toLowercaseStr (fromUtf8Lossy raw) = "false"
        ∨ toLowercaseStr (fromUtf8Lossy raw) = "0"
    · simp [h1]
    · by_cases h2 : toLowercaseStr (fromUtf8Lossy raw) = "true"
          ∨ toLowercaseStr (fromUtf8Lossy raw) = "1"
      · simp [h1, h2]
      · simp [h1, h2, strBytes]
  refine ⟨hshape, ?_, by decide, by decide, by decide, by decide, by decide, by decide⟩
  rw [hshape]
  by_cases h1 : toLowercaseStr (fromUtf8Lossy raw) = "false"
      ∨ toLowercaseStr (fromUtf8Lossy raw) = "0"
  · simp [h1]
  · by_cases h2 : toLowercaseStr (fromUtf8Lossy raw) = "true"
        ∨ toLowercaseStr (fromUtf8Lossy raw) = "1"
    · simp [h1, h2]
    · simp [h1, h2]

/-- C3: for every raw byte payload, the copy rule returns the payload
unchanged, the omit rule returns empty bytes, and the literal-string and
literal-bytes rules return the configured literal's bytes, ignoring the
incoming payload entirely. -/
theorem copy_omit_literal_rules (raw bs : List Nat) (s : String) :
    transform raw (.behaviour .copy) = raw
    ∧ transform raw (.behaviour .omit) = []
    ∧ transform raw (.string s) = strBytes s
    ∧ transform raw (.bytes bs) = bs :=
  ⟨rfl, rfl, rfl, rfl⟩

/-- C4: a publish on a topic with no route table entry is silently
dropped — the step keeps running and issues zero client calls; route
lookup is a pure function (repeated lookups agree), and a topic absent
from the configured routes always looks up to `none`. -/
theorem unmapped_topic_dropped (verbose : Bool) (cfgTopics ts : List Topic)
    (tbl : RouteTable) (p : PublishPkt) (sr pr : ClientResult)
    (hmiss : lookupRoute tbl p.topic = none)
    (hprint : verbose = false ∨ validUtf8 p.payload = true) :
    sourceStep verbose cfgTopics tbl ⟨.ok (.incoming (.publish p)), sr, pr⟩ = (.running, [])
    ∧ (∀ k : String, lookupRoute tbl k = lookupRoute tbl k)
    ∧ (∀ k : String, (∀ t ∈ ts, t.«from» ≠ k) → lookupRoute (buildRoutes ts) k = none) := by
  have hpe : (verbose && printEventPanics (.incoming (.publish p))) = false := by
    refine printEventPanics_false_of _ _ ?_
    rcases hprint with h | h
    · exact Or.inl h
    · exact Or.inr (by simp [printEventPanics, h])
  exact ⟨by simp [sourceStep, hpe, hmiss], fun _ => rfl,
    fun k h => lookupRoute_buildRoutes_eq_none ts k h⟩

/-- Witness for C4: a publish on topic `other` against the one-route
table `dev/a → cloud/a`. -/
theorem unmapped_topic_dropped_witness :
    lookupRoute (buildRoutes [⟨"dev/a", "cloud/a", .behaviour .copy⟩])
        (PublishPkt.mk "other" (strBytes "x") false).topic = none
    ∧ (sourceStep false [⟨"dev/a", "cloud/a", .behaviour .copy⟩]
          (buildRoutes [⟨"dev/a", "cloud/a", .behaviour .copy⟩])
          ⟨.ok (.incoming (.publish ⟨"other", strBytes "x", false⟩)), .ok, .ok⟩
        = (.running, [])
      ∧ (∀ k : String,
          lookupRoute (buildRoutes [⟨"dev/a", "cloud/a", .behaviour .copy⟩]) k
            = lookupRoute (buildRoutes [⟨"dev/a", "cloud/a", .behaviour .copy⟩]) k)
      ∧ (∀ k : String,
          (∀ t ∈ [(⟨"dev/a", "cloud/a", .behaviour .copy⟩ : Topic)], t.«from» ≠ k) →
          lookupRoute (buildRoutes [(⟨"dev/a", "cloud/a", .behaviour .copy⟩ : Topic)]) k
            = none)) :=
  ⟨by decide,
   unmapped_topic_dropped false [⟨"dev/a", "cloud/a", .behaviour .copy⟩]
     [⟨"dev/a", "cloud/a", .behaviour .copy⟩]
     (buildRoutes [⟨"dev/a", "cloud/a", .behaviour .copy⟩])
     ⟨"other", strBytes "x", false⟩ .ok .ok (by decide) (Or.inl rfl)⟩

/-- C5: when two route entries share the same source-topic-pattern, the
route table built from the list maps that pattern to the destination and
rule of the later entry only (last-wins; `hpost` says `e₂` is the last
entry with that pattern). -/
theorem route_table_last_wins (pre mid post : List Topic) (e₁ e₂ : Topic)
    (hdup : e₁.«from» = e₂.«from»)
    (hpost : ∀ t ∈ post, t.«from» ≠ e₂.«from») :
    lookupRoute (buildRoutes ((pre ++ e₁ :: mid) ++ e₂ :: post)) e₂.«from»
      = some (e₂.«to», e₂.payload) := by
  rw [buildRoutes_eq_foldRoutes, foldRoutes_append, foldRoutes_cons,
    lookupRoute_foldRoutes_of_not_mem post _ _ hpost, lookupRoute_insertRoute]
  simp

/-- Witness for C5: two entries for `dev/a`; the table returns the later
destination and rule. -/
theorem route_table_last_wins_witness :
    (Topic.mk "dev/a" "cloud/early" (.behaviour .copy)).«from»
        = (Topic.mk "dev/a" "cloud/late" (.behaviour .omit)).«from»
    ∧ (∀ t ∈ ([] : List Topic),
        t.«from» ≠ (Topic.mk "dev/a" "cloud/late" (.behaviour .omit)).«from»)
    ∧ lookupRoute
        (buildRoutes (([] ++ ⟨"dev/a", "cloud/early", .behaviour .copy⟩ :: [])
          ++ ⟨"dev/a", "cloud/late", .behaviour .omit⟩ :: []))
        (Topic.mk "dev/a" "cloud/late" (.behaviour .omit)).«from»
      = some ("cloud/late", .behaviour .omit) :=
  ⟨rfl, by simp,
   route_table_last_wins [] [] [] ⟨"dev/a", "cloud/early", .behaviour .copy⟩
     ⟨"dev/a", "cloud/late", .behaviour .omit⟩ rfl (by simp)⟩

/-- C6: on a connection acknowledgment with a success return code, the
source loop issues a single batch subscription covering every configured
source topic, each filter at at-least-once quality; every key of the
route table is among the subscribed topics, and every subscribed topic
has exactly one route table entry. -/
theorem connack_batch_subscribe (verbose : Bool) (ts : List Topic) (pr : ClientResult) :
    sourceStep verbose ts (buildRoutes ts) ⟨.ok (.incoming (.connAck true)), .ok, pr⟩
      = (.running, [Action.subscribeMany (ts.map fun t => ⟨t.«from», QoS.atLeastOnce⟩)])
    ∧ (∀ f ∈ ts.map (fun t => SubscribeFilter.mk t.«from» QoS.atLeastOnce),
        f.qos = QoS.atLeastOnce)
    ∧ (∀ a ∈ routeKeys (buildRoutes ts), a ∈ ts.map fun t => t.«from»)
    ∧ (∀ t ∈ ts, (routeKeys (buildRoutes ts)).count t.«from» = 1) := by
  refine ⟨by simp [sourceStep, printEventPanics], ?_, ?_, ?_⟩
  · intro f hf
    rcases List.mem_map.mp hf with ⟨t, _, rfl⟩
    rfl
  · exact fun a ha => routeKeys_buildRoutes_subset ts a ha
  · exact fun t ht => List.count_eq_one_of_mem (nodup_routeKeys_buildRoutes ts)
      (mem_routeKeys_buildRoutes ts t ht)

/-- Witness for C6 at the concrete one-route configuration. -/
theorem connack_batch_subscribe_witness :
    sourceStep false [⟨"dev/a", "cloud/a", .behaviour .copy⟩]
        (buildRoutes [⟨"dev/a", "cloud/a", .behaviour .copy⟩])
        ⟨.ok (.incoming (.connAck true)), .ok, .ok⟩
      = (.running,
         [Action.subscribeMany
           (([(⟨"dev/a", "cloud/a", .behaviour .copy⟩ : Topic)]).map
             fun t => ⟨t.«from», QoS.atLeastOnce⟩)])
    ∧ (∀ f ∈ ([(⟨"dev/a", "cloud/a", .behaviour .copy⟩ : Topic)]).map
          (fun t => SubscribeFilter.mk t.«from» QoS.atLeastOnce),
        f.qos = QoS.atLeastOnce)
    ∧ (∀ a ∈ routeKeys (buildRoutes [(⟨"dev/a", "cloud/a", .behaviour .copy⟩ : Topic)]),
        a ∈ ([(⟨"dev/a", "cloud/a", .behaviour .copy⟩ : Topic)]).map fun t => t.«from»)
    ∧ (∀ t ∈ [(⟨"dev/a", "cloud/a", .behaviour .copy⟩ : Topic)],
        (routeKeys (buildRoutes [(⟨"dev/a", "cloud/a", .behaviour .copy⟩ : Topic)])).count
          t.«from» = 1) :=
  connack_batch_subscribe false [⟨"dev/a", "cloud/a", .behaviour .copy⟩] .ok

/-- C7 counterexample: at a concrete input the claim as stated fails.
The destination publish fails and the source task terminates with the
`.expect` message, yet after further destination events the destination
loop is still running, so `tokio::join!` has not completed and the
process has not terminated. -/
theorem routing_failure_process_survives :
    (sourceLoopRun false [⟨"dev/a", "cloud/a", .behaviour .copy⟩]
        (buildRoutes [⟨"dev/a", "cloud/a", .behaviour .copy⟩])
        [⟨.ok (.incoming (.publish ⟨"dev/a", strBytes "hello", false⟩)), .ok, .err⟩]).1
      = .terminated "Failed to publish to destination"
    ∧ destLoopRun false [.ok .outgoing, .error "connection reset"] = .running
    ∧ processExits
        (sourceLoopRun false [⟨"dev/a", "cloud/a", .behaviour .copy⟩]
          (buildRoutes [⟨"dev/a", "cloud/a", .behaviour .copy⟩])
          [⟨.ok (.incoming (.publish ⟨"dev/a", strBytes "hello", false⟩)), .ok, .err⟩]).1
        (destLoopRun false [.ok .outgoing, .error "connection reset"])
      = false :=
  ⟨by decide, by decide, by decide⟩

/-- C7 amended: a failed initial subscription or a failed publish to the
destination terminates the source loop task through `.expect` — once a
step terminates, the loop ends there, the remaining events are never
processed, nothing is retried or requeued — but the process does not
terminate: the panic is caught by the runtime as a join error, the
destination loop never terminates on its own (shown for non-verbose
runs over any finite event trace), so the supervisor's `tokio::join!`
never completes and the process stays alive running only the
destination loop. -/
theorem routing_failure_ends_task_not_process (verbose : Bool) (cfgTopics : List Topic)
    (tbl : RouteTable) (pre rest : List StepInput) (inp : StepInput) (m : String)
    (as : List Action) (p : PublishPkt) (dest : String) (rule : Payload)
    (sr : ClientResult)
    (hpre : ∀ x ∈ pre, (sourceStep verbose cfgTopics tbl x).1 = .running)
    (hterm : sourceStep verbose cfgTopics tbl inp = (.terminated m, as))
    (hroute : lookupRoute tbl p.topic = some (dest, rule))
    (hprint : verbose = false ∨ validUtf8 p.payload = true) :
    (sourceStep verbose cfgTopics tbl ⟨.ok (.incoming (.connAck true)), .err, sr⟩).1
        = .terminated "Failed to subscribe to source topics"
    ∧ (sourceStep verbose cfgTopics tbl ⟨.ok (.incoming (.publish p)), sr, .err⟩).1
        = .terminated "Failed to publish to destination"
    ∧ sourceLoopRun verbose cfgTopics tbl (pre ++ inp :: rest)
        = (.terminated m,
           (pre.map fun x => (sourceStep verbose cfgTopics tbl x).2).flatten ++ as)
    ∧ (∀ es : List (Except String Event), destLoopRun false es = .running)
    ∧ (∀ es : List (Except String Event),
        processExits (.terminated m) (destLoopRun false es) = false) := by
  have hpe : (verbose && printEventPanics (.incoming (.publish p))) = false := by
    refine printEventPanics_false_of _ _ ?_
    rcases hprint with h | h
    · exact Or.inl h
    · exact Or.inr (by simp [printEventPanics, h])
  refine ⟨by simp [sourceStep, printEventPanics], by simp [sourceStep, hpe, hroute],
    sourceLoopRun_stops verbose cfgTopics tbl pre rest inp m as hpre hterm,
    destLoopRun_not_verbose, ?_⟩
  intro es
  rw [destLoopRun_not_verbose]
  rfl

/-- Witness for C7 amended: a publish to the routed topic `dev/a` whose
destination publish fails, followed by one more event that is never
processed. -/
theorem routing_failure_ends_task_not_process_witness :
    (∀ x ∈ ([] : List StepInput),
      (sourceStep false [⟨"dev/a", "cloud/a", .behaviour .copy⟩]
        (buildRoutes [⟨"dev/a", "cloud/a", .behaviour .copy⟩]) x).1 = .running)
    ∧ sourceStep false [⟨"dev/a", "cloud/a", .behaviour .copy⟩]
        (buildRoutes [⟨"dev/a", "cloud/a", .behaviour .copy⟩])
        ⟨.ok (.incoming (.publish ⟨"dev/a", strBytes "hello", false⟩)), .ok, .err⟩
      = (.terminated "Failed to publish to destination",
         [Action.publishDest "cloud/a" QoS.atLeastOnce false
           (transform (strBytes "hello") (.behaviour .copy))])
    ∧ lookupRoute (buildRoutes [⟨"dev/a", "cloud/a", .behaviour .copy⟩])
        (PublishPkt.mk "dev/a" (strBytes "hello") false).topic
      = some ("cloud/a", .behaviour .copy)
    ∧ ((sourceStep false [⟨"dev/a", "cloud/a", .behaviour .copy⟩]
          (buildRoutes [⟨"dev/a", "cloud/a", .behaviour .copy⟩])
          ⟨.ok (.incoming (.connAck true)), .err, .ok⟩).1
        = .terminated "Failed to subscribe to source topics"
      ∧ (sourceStep false [⟨"dev/a", "cloud/a", .behaviour .copy⟩]
          (buildRoutes [⟨"dev/a", "cloud/a", .behaviour .copy⟩])
          ⟨.ok (.incoming (.publish ⟨"dev/a", strBytes "hello", false⟩)), .ok, .err⟩).1
        = .terminated "Failed to publish to destination"
      ∧ sourceLoopRun false [⟨"dev/a", "cloud/a", .behaviour .copy⟩]
          (buildRoutes [⟨"dev/a", "cloud/a", .behaviour .copy⟩])
          ([] ++ ⟨.ok (.incoming (.publish ⟨"dev/a", strBytes "hello", false⟩)), .ok, .err⟩
            :: [⟨.ok (.incoming (.publish ⟨"dev/a", strBytes "hello", false⟩)), .ok, .ok⟩])
        = (.terminated "Failed to publish to destination",
           (([] : List StepInput).map fun x =>
             (sourceStep false [⟨"dev/a", "cloud/a", .behaviour .copy⟩]
               (buildRoutes [⟨"dev/a", "cloud/a", .behaviour .copy⟩]) x).2).flatten
             ++ [Action.publishDest "cloud/a" QoS.atLeastOnce false
                  (transform (strBytes "hello") (.behaviour .copy))])
      ∧ (∀ es : List (Except String Event), destLoopRun false es = .running)
      ∧ (∀ es : List (Except String Event),
          processExits (.terminated "Failed to publish to destination")
            (destLoopRun false es) = false)) :=
  ⟨by simp, by decide, by decide,
   routing_failure_ends_task_not_process false [⟨"dev/a", "cloud/a", .behaviour .copy⟩]
     (buildRoutes [⟨"dev/a", "cloud/a", .behaviour .copy⟩]) []
     [⟨.ok (.incoming (.publish ⟨"dev/a", strBytes "hello", false⟩)), .ok, .ok⟩]
     ⟨.ok (.incoming (.publish ⟨"dev/a", strBytes "hello", false⟩)), .ok, .err⟩
     "Failed to publish to destination"
     [Action.publishDest "cloud/a" QoS.atLeastOnce false
       (transform (strBytes "hello") (.behaviour .copy))]
     ⟨"dev/a", strBytes "hello", false⟩ "cloud/a" (.behaviour .copy) .ok
     (by simp) (by decide) (by decide) (Or.inl rfl)⟩

/-- C8 counterexample: at a concrete unreadable-config input the program
prints a diagnostic and returns plainly from `main`, so the process exits
with status 0 — not with a non-zero status as the claim states. -/
theorem read_failure_exits_with_status_zero :
    startup (.error "No such file or directory (os error 2)") (fun _ => .error "x")
        = .exitNormal "Unable to read config file: No such file or directory (os error 2)"
    ∧ startupExitNonZero
        (startup (.error "No such file or directory (os error 2)") (fun _ => .error "x"))
        = some false
    ∧ startupConnects
        (startup (.error "No such file or directory (os error 2)") (fun _ => .error "x"))
        = false :=
  ⟨rfl, rfl, rfl⟩

/-- C8 amended: if the config file cannot be read, the program prints a
diagnostic and returns from `main` immediately — exit status 0, not
non-zero; if it cannot be parsed, it panics with a diagnostic and a
non-zero status; in both cases no connection, subscription or publish is
performed. -/
theorem startup_failure_behaviour (e s msg : String)
    (parse : String → Except String Config)
    (hp : parse s = .error msg) :
    (startup (.error e) parse = .exitNormal ("Unable to read config file: " ++ e)
     ∧ startupExitNonZero (startup (.error e) parse) = some false
     ∧ startupConnects (startup (.error e) parse) = false)
    ∧ (startup (.ok s) parse = .panicExit "Failed to parse config"
     ∧ startupExitNonZero (startup (.ok s) parse) = some true
     ∧ startupConnects (startup (.ok s) parse) = false) := by
  refine ⟨⟨rfl, rfl, rfl⟩, ?_, ?_, ?_⟩ <;>
    simp [startup, hp, startupExitNonZero, startupConnects]

/-- Witness for C8 amended, with a concrete failing parse. -/
theorem startup_failure_behaviour_witness :
    (fun _ : String => (.error "expected value" : Except String Config)) "not json"
        = .error "expected value"
    ∧ ((startup (.error "enoent") (fun _ => .error "expected value")
          = .exitNormal ("Unable to read config file: " ++ "enoent")
        ∧ startupExitNonZero (startup (.error "enoent") (fun _ => .error "expected value"))
          = some false
        ∧ startupConnects (startup (.error "enoent") (fun _ => .error "expected value"))
          = false)
      ∧ (startup (.ok "not json") (fun _ => .error "expected value")
          = .panicExit "Failed to parse config"
        ∧ startupExitNonZero (startup (.ok "not json") (fun _ => .error "expected value"))
          = some true
        ∧ startupConnects (startup (.ok "not json") (fun _ => .error "expected value"))
          = false)) :=
  ⟨rfl,
   startup_failure_behaviour "enoent" "not json" "expected value"
     (fun _ => .error "expected value") rfl⟩

/-- C9: the configured connection timeout is never applied when the
client is built — `make_client` parses the field but calls no setter for
it, so configurations differing only in `connTimeout` produce identical
client options (the claim says the options would differ). -/
theorem conn_timeout_never_applied :
    (∀ (cfg : ConnectionConfig) (readFile : String → Except String (List Nat))
        (rootStore : Except String Unit) (t : Nat),
      makeClientOptions { cfg with connTimeout := t } readFile rootStore
        = makeClientOptions cfg readFile rootStore)
    ∧ (ConnectionConfig.mk "example.org" (.authPassword "u" "p") "rust-mqtt-repeater"
          8883 30 true 99 100
        ≠ ConnectionConfig.mk "example.org" (.authPassword "u" "p") "rust-mqtt-repeater"
          8883 30 true 5 100)
    ∧ makeClientOptions
        (ConnectionConfig.mk "example.org" (.authPassword "u" "p") "rust-mqtt-repeater"
          8883 30 true 99 100) (fun _ => .error "") (.ok ())
      = makeClientOptions
        (ConnectionConfig.mk "example.org" (.authPassword "u" "p") "rust-mqtt-repeater"
          8883 30 true 5 100) (fun _ => .error "") (.ok ()) := by
  refine ⟨?_, by decide, rfl⟩
  intro cfg readFile rootStore t
  cases cfg
  rfl

/-- C10: in verbose mode, printing an inbound publish event unwraps a
strict UTF-8 decode of the payload, so on a payload that is not valid
UTF-8 (here the single byte `0xFF`) the printing step panics and the
source listener task terminates — even though the payload transform
itself is total on the same bytes. -/
theorem print_event_panics_on_invalid_utf8 :
    validUtf8 [0xFF] = false
    ∧ printEventPanics (.incoming (.publish ⟨"dev/a", [0xFF], false⟩)) = true
    ∧ sourceStep true [⟨"dev/a", "cloud/a", .behaviour .copy⟩]
        (buildRoutes [⟨"dev/a", "cloud/a", .behaviour .copy⟩])
        ⟨.ok (.incoming (.publish ⟨"dev/a", [0xFF], false⟩)), .ok, .ok⟩
      = (.terminated "byte index panic in print_event", [])
    ∧ transform [0xFF] (.behaviour .invertBoolean) = []
    ∧ transform [0xFF] (.behaviour .copy) = [0xFF] :=
  ⟨by decide, by decide, by decide, by decide, by decide⟩

end MqttRepeater
